import Mathlib

/-!
Shallow embedding of the presentation-designer CRUD action layer
(`src/actions/index.ts` together with the table declarations).

The store is modelled as two lists of records (rows of the `Presentations`
and `Slides` tables).  Each Astro action is modelled as a pure function
taking its parsed input, the request context's authenticated user
(`Option String`, the user's id), the current store, the current time
(`Nat`, standing for `new Date()` / `Date.now()`), and, for inserting
actions, the fresh id produced by `crypto.randomUUID()`.  An action
returns the new store paired with `Except ActionErr output`; a thrown
`ActionError` is the `.error` case (the store component then carries
whatever writes happened before the throw — in this code, none).

Schema validation (`z.object(...)` with `.min(1)` / `.refine(...)`)
runs before the handler body, exactly as `defineAction` does, and a
failure is the distinct error kind `ActionErr.validation`.
-/

namespace PresentationDesigner

/-- Row of the `Presentations` table.  `description`, `theme`,
`aspectRatio` and `slideCount` are optional columns; timestamps are
modelled as `Nat`. -/
structure Presentation where
  id : String
  userId : String
  title : String
  description : Option String
  theme : Option String
  aspectRatio : Option String
  slideCount : Option Int
  createdAt : Nat
  updatedAt : Nat
deriving Repr, DecidableEq

/-- Row of the `Slides` table.  `orderIndex` is a required column
(`column.number()`), the tag/text columns are optional. -/
structure Slide where
  id : String
  presentationId : String
  orderIndex : Int
  layoutType : Option String
  title : Option String
  content : Option String
  notes : Option String
  rawData : Option String
  createdAt : Nat
  updatedAt : Nat
deriving Repr, DecidableEq

/-- The store: the rows of the two tables, in insertion order. -/
structure DB where
  presentations : List Presentation
  slides : List Slide
deriving Repr, DecidableEq

/-- The error kinds an action can surface: the two `ActionError` codes
thrown by the handlers, plus the schema-validation failure that
`defineAction` raises before the handler body runs. -/
inductive ActionErr where
  | unauthorized
  | notFound
  | validation
deriving Repr, DecidableEq

/-- `requireUser`: extract the authenticated user from the context or
throw `UNAUTHORIZED`. -/
def requireUser (u : Option String) : Except ActionErr String :=
  match u with
  | none => .error .unauthorized
  | some uid => .ok uid

/-- `getOwnedPresentation`: first row of
`select from Presentations where id = presentationId and userId = userId`,
or a `NOT_FOUND` throw when there is none. -/
def getOwnedPresentation (presentationId userId : String) (db : DB) :
    Except ActionErr Presentation :=
  match db.presentations.find? (fun p => p.id == presentationId && p.userId == userId) with
  | none => .error .notFound
  | some p => .ok p

/-! ### createPresentation -/

/-- Parsed input of `createPresentation`. -/
structure CreatePresentationInput where
  title : String
  description : Option String
  theme : Option String
  aspectRatio : Option String
deriving Repr, DecidableEq

/-- Schema of `createPresentation`: `title: z.string().min(1)`, the rest
optional. -/
def validCreatePresentation (i : CreatePresentationInput) : Bool :=
  decide (1 ≤ i.title.length)

/-- The `createPresentation` action: validate, require a user, insert a
record with `slideCount = 0` and both timestamps `now`. -/
def createPresentation (i : CreatePresentationInput) (u : Option String) (db : DB)
    (now : Nat) (freshId : String) : DB × Except ActionErr Presentation :=
  if validCreatePresentation i = false then (db, .error .validation) else
  match requireUser u with
  | .error e => (db, .error e)
  | .ok uid =>
    let p : Presentation :=
      { id := freshId, userId := uid, title := i.title, description := i.description,
        theme := i.theme, aspectRatio := i.aspectRatio, slideCount := some 0,
        createdAt := now, updatedAt := now }
    ({ db with presentations := db.presentations ++ [p] }, .ok p)

/-! ### updatePresentation -/

/-- Parsed input of `updatePresentation`; `some` marks a supplied field. -/
structure UpdatePresentationInput where
  id : String
  title : Option String
  description : Option String
  theme : Option String
  aspectRatio : Option String
  slideCount : Option Int
deriving Repr, DecidableEq

/-- The `.refine` clause: at least one updatable field supplied. -/
def suppliesPresentationField (i : UpdatePresentationInput) : Bool :=
  i.title.isSome || i.description.isSome || i.theme.isSome ||
    i.aspectRatio.isSome || i.slideCount.isSome

/-- Schema of `updatePresentation`: `id` non-empty, `title` non-empty when
supplied, and the `.refine` clause. -/
def validUpdatePresentation (i : UpdatePresentationInput) : Bool :=
  decide (1 ≤ i.id.length) &&
    (match i.title with
     | some t => decide (1 ≤ t.length)
     | none => true) &&
    suppliesPresentationField i

/-- The `set` payload of `updatePresentation`: the spread of the supplied
fields plus `updatedAt: new Date()`. -/
def applyPresentationUpdate (i : UpdatePresentationInput) (now : Nat)
    (p : Presentation) : Presentation :=
  { p with
    title := match i.title with | some t => t | none => p.title
    description := match i.description with | some d => some d | none => p.description
    theme := match i.theme with | some t => some t | none => p.theme
    aspectRatio := match i.aspectRatio with | some a => some a | none => p.aspectRatio
    slideCount := match i.slideCount with | some c => some c | none => p.slideCount
    updatedAt := now }

/-- The `updatePresentation` action: validate, require a user, ownership
guard, then `update Presentations set ... where id = input.id returning`;
the returned row is the first updated one. -/
def updatePresentation (i : UpdatePresentationInput) (u : Option String) (db : DB)
    (now : Nat) : DB × Except ActionErr (Option Presentation) :=
  if validUpdatePresentation i = false then (db, .error .validation) else
  match requireUser u with
  | .error e => (db, .error e)
  | .ok uid =>
    match getOwnedPresentation i.id uid db with
    | .error e => (db, .error e)
    | .ok _ =>
      let newPres := db.presentations.map
        (fun p => if p.id == i.id then applyPresentationUpdate i now p else p)
      ({ db with presentations := newPres },
       .ok (newPres.find? (fun p => p.id == i.id)))

/-! ### listPresentations -/

/-- The `listPresentations` action: its input schema
(`z.object({}).optional()`) cannot fail, so validation is omitted;
require a user, then return that user's rows with their count. -/
def listPresentations (u : Option String) (db : DB) :
    DB × Except ActionErr (List Presentation × Nat) :=
  match requireUser u with
  | .error e => (db, .error e)
  | .ok uid =>
    let items := db.presentations.filter (fun p => p.userId == uid)
    (db, .ok (items, items.length))

/-! ### createSlide -/

/-- Parsed input of `createSlide`. -/
structure CreateSlideInput where
  presentationId : String
  orderIndex : Option Int
  layoutType : Option String
  title : Option String
  content : Option String
  notes : Option String
  rawData : Option String
deriving Repr, DecidableEq

/-- Schema of `createSlide`: `presentationId: z.string().min(1)`, the rest
optional. -/
def validCreateSlide (i : CreateSlideInput) : Bool :=
  decide (1 ≤ i.presentationId.length)

/-- `Math.max(...xs)` for a non-empty argument list (the source guards the
empty case with `existingOrders.length ? ... : 1`). -/
def listMax : List Int → Int
  | [] => 0
  | x :: xs => xs.foldl max x

/-- The `existingOrders` query of `createSlide`:
`select { orderIndex } from Slides where presentationId = input.presentationId`.
The source's `row.orderIndex ?? 0` is the identity here because
`orderIndex` is a non-optional column. -/
def existingOrdersOf (db : DB) (presentationId : String) : List Int :=
  (db.slides.filter (fun s => s.presentationId == presentationId)).map
    (fun s => s.orderIndex)

/-- The `nextOrder` computation of `createSlide`:
`input.orderIndex ?? (existingOrders.length ? Math.max(...) + 1 : 1)`. -/
def nextOrderOf (db : DB) (i : CreateSlideInput) : Int :=
  match i.orderIndex with
  | some o => o
  | none =>
    if (existingOrdersOf db i.presentationId).length ≠ 0 then
      listMax (existingOrdersOf db i.presentationId) + 1
    else 1

/-- The `createSlide` action: validate, require a user, ownership guard,
insert the new slide, then
`update Presentations set { slideCount: existingOrders.length + 1, updatedAt: now } where id = input.presentationId`. -/
def createSlide (i : CreateSlideInput) (u : Option String) (db : DB)
    (now : Nat) (freshId : String) : DB × Except ActionErr Slide :=
  if validCreateSlide i = false then (db, .error .validation) else
  match requireUser u with
  | .error e => (db, .error e)
  | .ok uid =>
    match getOwnedPresentation i.presentationId uid db with
    | .error e => (db, .error e)
    | .ok _ =>
      let slide : Slide :=
        { id := freshId, presentationId := i.presentationId,
          orderIndex := nextOrderOf db i, layoutType := i.layoutType,
          title := i.title, content := i.content, notes := i.notes,
          rawData := i.rawData, createdAt := now, updatedAt := now }
      let newPres := db.presentations.map
        (fun p => if p.id == i.presentationId then
            { p with
              slideCount := some (((existingOrdersOf db i.presentationId).length : Int) + 1)
              updatedAt := now }
          else p)
      ({ presentations := newPres, slides := db.slides ++ [slide] }, .ok slide)

/-! ### updateSlide -/

/-- Parsed input of `updateSlide`; `some` marks a supplied field. -/
structure UpdateSlideInput where
  id : String
  presentationId : String
  orderIndex : Option Int
  layoutType : Option String
  title : Option String
  content : Option String
  notes : Option String
  rawData : Option String
deriving Repr, DecidableEq

/-- The `.refine` clause: at least one updatable field supplied. -/
def suppliesSlideField (i : UpdateSlideInput) : Bool :=
  i.orderIndex.isSome || i.layoutType.isSome || i.title.isSome ||
    i.content.isSome || i.notes.isSome || i.rawData.isSome

/-- Schema of `updateSlide`: `id` and `presentationId` non-empty plus the
`.refine` clause. -/
def validUpdateSlide (i : UpdateSlideInput) : Bool :=
  decide (1 ≤ i.id.length) && decide (1 ≤ i.presentationId.length) &&
    suppliesSlideField i

/-- The `set` payload of `updateSlide`: the spread of the supplied fields
plus `updatedAt: new Date()`. -/
def applySlideUpdate (i : UpdateSlideInput) (now : Nat) (s : Slide) : Slide :=
  { s with
    orderIndex := match i.orderIndex with | some o => o | none => s.orderIndex
    layoutType := match i.layoutType with | some l => some l | none => s.layoutType
    title := match i.title with | some t => some t | none => s.title
    content := match i.content with | some c => some c | none => s.content
    notes := match i.notes with | some n => some n | none => s.notes
    rawData := match i.rawData with | some r => some r | none => s.rawData
    updatedAt := now }

/-- The `updateSlide` action: validate, require a user, ownership guard,
fetch the slide by `id` and `presentationId` (throwing `NOT_FOUND` when
absent), then `update Slides set ... where id = input.id returning`. -/
def updateSlide (i : UpdateSlideInput) (u : Option String) (db : DB)
    (now : Nat) : DB × Except ActionErr (Option Slide) :=
  if validUpdateSlide i = false then (db, .error .validation) else
  match requireUser u with
  | .error e => (db, .error e)
  | .ok uid =>
    match getOwnedPresentation i.presentationId uid db with
    | .error e => (db, .error e)
    | .ok _ =>
      match db.slides.find? (fun s => s.id == i.id && s.presentationId == i.presentationId) with
      | none => (db, .error .notFound)
      | some _ =>
        let newSlides := db.slides.map
          (fun s => if s.id == i.id then applySlideUpdate i now s else s)
        ({ db with slides := newSlides },
         .ok (newSlides.find? (fun s => s.id == i.id)))

/-! ### deleteSlide -/

/-- Parsed input of `deleteSlide`. -/
structure DeleteSlideInput where
  id : String
  presentationId : String
deriving Repr, DecidableEq

/-- Schema of `deleteSlide`: both identifiers non-empty. -/
def validDeleteSlide (i : DeleteSlideInput) : Bool :=
  decide (1 ≤ i.id.length) && decide (1 ≤ i.presentationId.length)

/-- The `deleteSlide` action: validate, require a user, ownership guard,
`delete from Slides where id = input.id and presentationId = input.presentationId`,
then throw `NOT_FOUND` when `rowsAffected` is `0`.  The presentation row
is never written. -/
def deleteSlide (i : DeleteSlideInput) (u : Option String) (db : DB) :
    DB × Except ActionErr Unit :=
  if validDeleteSlide i = false then (db, .error .validation) else
  match requireUser u with
  | .error e => (db, .error e)
  | .ok uid =>
    match getOwnedPresentation i.presentationId uid db with
    | .error e => (db, .error e)
    | .ok _ =>
      let remaining := db.slides.filter
        (fun s => !(s.id == i.id && s.presentationId == i.presentationId))
      let rowsAffected := db.slides.length - remaining.length
      if rowsAffected = 0 then ({ db with slides := remaining }, .error .notFound)
      else ({ db with slides := remaining }, .ok ())

/-! ### listSlides -/

/-- Parsed input of `listSlides`. -/
structure ListSlidesInput where
  presentationId : String
deriving Repr, DecidableEq

/-- Schema of `listSlides`: `presentationId` non-empty. -/
def validListSlides (i : ListSlidesInput) : Bool :=
  decide (1 ≤ i.presentationId.length)

/-- The `listSlides` action: validate, require a user, ownership guard,
then return the presentation's slides with their count. -/
def listSlides (i : ListSlidesInput) (u : Option String) (db : DB) :
    DB × Except ActionErr (List Slide × Nat) :=
  if validListSlides i = false then (db, .error .validation) else
  match requireUser u with
  | .error e => (db, .error e)
  | .ok uid =>
    match getOwnedPresentation i.presentationId uid db with
    | .error e => (db, .error e)
    | .ok _ =>
      let items := db.slides.filter (fun s => s.presentationId == i.presentationId)
      (db, .ok (items, items.length))

/-! ### Derived notions used by the claims -/

/-- The slides currently referencing a presentation. -/
def slidesFor (db : DB) (presentationId : String) : List Slide :=
  db.slides.filter (fun s => s.presentationId == presentationId)

/-- The `slideCount` cache invariant: every presentation row's stored
`slideCount` equals the number of slide rows referencing it. -/
def countInvariant (db : DB) : Prop :=
  ∀ p ∈ db.presentations, p.slideCount = some ((slidesFor db p.id).length : Int)

instance (db : DB) : Decidable (countInvariant db) := by
  unfold countInvariant; infer_instance

/-! ### Concrete fixtures for witnesses and counterexamples -/

/-- A minimal presentation row, for concrete store states. -/
def mkPres (id uid : String) (cnt : Option Int) : Presentation :=
  { id := id, userId := uid, title := "T", description := none, theme := none,
    aspectRatio := none, slideCount := cnt, createdAt := 0, updatedAt := 0 }

/-- A minimal slide row, for concrete store states. -/
def mkSlide (id presId : String) (ord : Int) : Slide :=
  { id := id, presentationId := presId, orderIndex := ord, layoutType := none,
    title := none, content := none, notes := none, rawData := none,
    createdAt := 0, updatedAt := 0 }

/-- A store owned by user `u`: one presentation `p1` with cached count `1`
and one slide `s1` (order index 1) referencing it. -/
def exDb : DB :=
  { presentations := [mkPres "p1" "u" (some 1)], slides := [mkSlide "s1" "p1" 1] }

/-- A store where `p1` has a single slide whose order index is `5`, not
`1` — one existing slide, maximum order index `5`. -/
def gapDb : DB :=
  { presentations := [mkPres "p1" "u" (some 1)], slides := [mkSlide "s1" "p1" 5] }

/-- A store where `p1` has no slides but a stale cached `slideCount` of
`7`. -/
def staleDb : DB :=
  { presentations := [mkPres "p1" "u" (some 7)], slides := [] }

/-- A store with two presentations of user `u` where slide `s1` lives
under `p1`, so addressing it through `p2` is a mismatch. -/
def twoPresDb : DB :=
  { presentations := [mkPres "p1" "u" (some 1), mkPres "p2" "u" (some 0)],
    slides := [mkSlide "s1" "p1" 1] }

/-! ### Guard lemmas -/

/-- When no presentation row matches both the identifier and the user, the
ownership guard throws `NOT_FOUND` — the nonexistent-id case and the
other-owner case land here identically. -/
theorem getOwnedPresentation_eq_notFound {presentationId userId : String} {db : DB}
    (h : ∀ p ∈ db.presentations, ¬ (p.id = presentationId ∧ p.userId = userId)) :
    getOwnedPresentation presentationId userId db = .error .notFound := by
  have hfind : db.presentations.find?
      (fun p => p.id == presentationId && p.userId == userId) = none := by
    rw [List.find?_eq_none]
    intro p hp hc
    rw [Bool.and_eq_true, beq_iff_eq, beq_iff_eq] at hc
    exact h p hp hc
  simp [getOwnedPresentation, hfind]

/-- When some presentation row matches both the identifier and the user,
the ownership guard succeeds. -/
theorem getOwnedPresentation_isOk {presentationId userId : String} {db : DB}
    (h : ∃ p ∈ db.presentations, p.id = presentationId ∧ p.userId = userId) :
    ∃ p, getOwnedPresentation presentationId userId db = .ok p := by
  unfold getOwnedPresentation
  cases hf : db.presentations.find? (fun p => p.id == presentationId && p.userId == userId) with
  | none =>
    rw [List.find?_eq_none] at hf
    obtain ⟨p, hp, h1, h2⟩ := h
    exact absurd (by rw [Bool.and_eq_true, beq_iff_eq, beq_iff_eq]; exact ⟨h1, h2⟩) (hf p hp)
  | some p => exact ⟨p, rfl⟩

/-! ### Success characterizations of the mutating actions -/

/-- `createPresentation` with a valid input and an authenticated user
appends exactly one row with `slideCount = 0` and both timestamps `now`. -/
theorem createPresentation_eq {i : CreatePresentationInput} {uid : String} (db : DB)
    (now : Nat) (freshId : String) (hv : validCreatePresentation i = true) :
    createPresentation i (some uid) db now freshId =
      ({ db with presentations := db.presentations ++
           [{ id := freshId, userId := uid, title := i.title, description := i.description,
              theme := i.theme, aspectRatio := i.aspectRatio, slideCount := some 0,
              createdAt := now, updatedAt := now }] },
       .ok { id := freshId, userId := uid, title := i.title, description := i.description,
             theme := i.theme, aspectRatio := i.aspectRatio, slideCount := some 0,
             createdAt := now, updatedAt := now }) := by
  simp [createPresentation, hv, requireUser]

/-- A successful `updatePresentation` implies its guards all passed. -/
theorem updatePresentation_ok_inv {i : UpdatePresentationInput} {u : Option String}
    {db : DB} {now : Nat} {o : Option Presentation}
    (h : (updatePresentation i u db now).2 = .ok o) :
    validUpdatePresentation i = true ∧
      ∃ uid, u = some uid ∧ ∃ p, getOwnedPresentation i.id uid db = .ok p := by
  unfold updatePresentation at h
  cases hv : validUpdatePresentation i with
  | false => rw [hv] at h; simp at h
  | true =>
    rw [hv] at h
    simp only [Bool.true_eq_false, if_false] at h
    cases u with
    | none => simp [requireUser] at h
    | some uid =>
      simp only [requireUser] at h
      cases hg : getOwnedPresentation i.id uid db with
      | error e => rw [hg] at h; simp at h
      | ok p => exact ⟨rfl, uid, rfl, p, hg⟩

/-- What `updatePresentation` does once its guards pass: map the supplied
fields over the rows matching the identifier; the slides are untouched. -/
theorem updatePresentation_eq {i : UpdatePresentationInput} {uid : String} {db : DB}
    {p : Presentation} (now : Nat)
    (hv : validUpdatePresentation i = true)
    (hg : getOwnedPresentation i.id uid db = .ok p) :
    updatePresentation i (some uid) db now =
      ({ db with presentations :=
           (db.presentations.map
             (fun q => if q.id == i.id then applyPresentationUpdate i now q else q)) },
       .ok ((db.presentations.map
           (fun q => if q.id == i.id then applyPresentationUpdate i now q else q)).find?
             (fun q => q.id == i.id))) := by
  simp [updatePresentation, hv, requireUser, hg]

/-- A successful `createSlide` implies its guards all passed. -/
theorem createSlide_ok_inv {i : CreateSlideInput} {u : Option String} {db : DB}
    {now : Nat} {freshId : String} {s : Slide}
    (h : (createSlide i u db now freshId).2 = .ok s) :
    validCreateSlide i = true ∧
      ∃ uid, u = some uid ∧ ∃ p, getOwnedPresentation i.presentationId uid db = .ok p := by
  unfold createSlide at h
  cases hv : validCreateSlide i with
  | false => rw [hv] at h; simp at h
  | true =>
    rw [hv] at h
    simp only [Bool.true_eq_false, if_false] at h
    cases u with
    | none => simp [requireUser] at h
    | some uid =>
      simp only [requireUser] at h
      cases hg : getOwnedPresentation i.presentationId uid db with
      | error e => rw [hg] at h; simp at h
      | ok p => exact ⟨rfl, uid, rfl, p, hg⟩

/-- What `createSlide` does once its guards pass: append the new slide
and rewrite the parent rows' `slideCount` to the number of previously
referencing slides plus one, refreshing their `updatedAt`. -/
theorem createSlide_eq {i : CreateSlideInput} {uid : String} {db : DB} {p : Presentation}
    (now : Nat) (freshId : String)
    (hv : validCreateSlide i = true)
    (hg : getOwnedPresentation i.presentationId uid db = .ok p) :
    createSlide i (some uid) db now freshId =
      ({ presentations := db.presentations.map (fun q =>
           if q.id == i.presentationId then
             { q with
               slideCount := some (((existingOrdersOf db i.presentationId).length : Int) + 1)
               updatedAt := now }
           else q),
         slides := db.slides ++
           [{ id := freshId, presentationId := i.presentationId,
              orderIndex := nextOrderOf db i, layoutType := i.layoutType,
              title := i.title, content := i.content, notes := i.notes,
              rawData := i.rawData, createdAt := now, updatedAt := now }] },
       .ok { id := freshId, presentationId := i.presentationId,
             orderIndex := nextOrderOf db i, layoutType := i.layoutType,
             title := i.title, content := i.content, notes := i.notes,
             rawData := i.rawData, createdAt := now, updatedAt := now }) := by
  simp [createSlide, hv, requireUser, hg]

/-- A successful `updateSlide` implies its guards all passed, including
the fetch of the slide by both identifiers. -/
theorem updateSlide_ok_inv {i : UpdateSlideInput} {u : Option String} {db : DB}
    {now : Nat} {o : Option Slide}
    (h : (updateSlide i u db now).2 = .ok o) :
    validUpdateSlide i = true ∧
      ∃ uid, u = some uid ∧
        (∃ p, getOwnedPresentation i.presentationId uid db = .ok p) ∧
        ∃ s0, db.slides.find?
          (fun s => s.id == i.id && s.presentationId == i.presentationId) = some s0 := by
  unfold updateSlide at h
  cases hv : validUpdateSlide i with
  | false => rw [hv] at h; simp at h
  | true =>
    rw [hv] at h
    simp only [Bool.true_eq_false, if_false] at h
    cases u with
    | none => simp [requireUser] at h
    | some uid =>
      simp only [requireUser] at h
      cases hg : getOwnedPresentation i.presentationId uid db with
      | error e => rw [hg] at h; simp at h
      | ok p =>
        rw [hg] at h
        cases hs : db.slides.find?
            (fun s => s.id == i.id && s.presentationId == i.presentationId) with
        | none => rw [hs] at h; simp at h
        | some s0 => exact ⟨rfl, uid, rfl, ⟨p, hg⟩, s0, rfl⟩

/-- What `updateSlide` does once its guards pass: map the supplied fields
over the slide rows matching the slide identifier; the presentations are
untouched. -/
theorem updateSlide_eq {i : UpdateSlideInput} {uid : String} {db : DB} {p : Presentation}
    {s0 : Slide} (now : Nat)
    (hv : validUpdateSlide i = true)
    (hg : getOwnedPresentation i.presentationId uid db = .ok p)
    (hs : db.slides.find?
      (fun s => s.id == i.id && s.presentationId == i.presentationId) = some s0) :
    updateSlide i (some uid) db now =
      ({ db with slides :=
           (db.slides.map
             (fun s => if s.id == i.id then applySlideUpdate i now s else s)) },
       .ok ((db.slides.map
           (fun s => if s.id == i.id then applySlideUpdate i now s else s)).find?
             (fun s => s.id == i.id))) := by
  simp [updateSlide, hv, requireUser, hg, hs]

/-- `updateSlide` throws `NOT_FOUND` and leaves the store unchanged when
the owned presentation exists but no slide row matches both supplied
identifiers. -/
theorem updateSlide_eq_notFound {i : UpdateSlideInput} {uid : String} {db : DB}
    {p : Presentation} (now : Nat)
    (hv : validUpdateSlide i = true)
    (hg : getOwnedPresentation i.presentationId uid db = .ok p)
    (hs : db.slides.find?
      (fun s => s.id == i.id && s.presentationId == i.presentationId) = none) :
    updateSlide i (some uid) db now = (db, .error .notFound) := by
  simp [updateSlide, hv, requireUser, hg, hs]

/-- `deleteSlide` never writes the `Presentations` table, on any path. -/
theorem deleteSlide_presentations_untouched (i : DeleteSlideInput) (u : Option String)
    (db : DB) : (deleteSlide i u db).1.presentations = db.presentations := by
  unfold deleteSlide
  split
  · rfl
  · split
    · rfl
    · split
      · rfl
      · dsimp only
        split <;> rfl

/-- `deleteSlide` throws `NOT_FOUND` and leaves the store unchanged when
the owned presentation exists but no slide row matches both supplied
identifiers: the delete affects zero rows. -/
theorem deleteSlide_eq_notFound {i : DeleteSlideInput} {uid : String} {db : DB}
    {p : Presentation}
    (hv : validDeleteSlide i = true)
    (hg : getOwnedPresentation i.presentationId uid db = .ok p)
    (hall : ∀ s ∈ db.slides, ¬ (s.id = i.id ∧ s.presentationId = i.presentationId)) :
    deleteSlide i (some uid) db = (db, .error .notFound) := by
  have hfilter : db.slides.filter
      (fun s => !(s.id == i.id && s.presentationId == i.presentationId)) = db.slides := by
    apply List.filter_eq_self.mpr
    intro s hs
    cases hbe : (s.id == i.id && s.presentationId == i.presentationId) with
    | false => rfl
    | true =>
      rw [Bool.and_eq_true, beq_iff_eq, beq_iff_eq] at hbe
      exact absurd hbe (hall s hs)
  unfold deleteSlide
  rw [hv]
  simp only [Bool.true_eq_false, if_false, requireUser]
  rw [hg]
  dsimp only
  rw [hfilter, Nat.sub_self]
  rfl

/-! ### Preservation of the `slideCount` cache invariant -/

theorem slidesFor_state_slides (ps : List Presentation) (sl : List Slide) (x : String) :
    slidesFor { presentations := ps, slides := sl } x =
      sl.filter (fun s => s.presentationId == x) := rfl

/-- `createPresentation` preserves the cache invariant: the new row
starts at `slideCount = 0` and (for a fresh id) no slide references it. -/
theorem countInvariant_createPresentation
    (i1 : CreatePresentationInput) (u : Option String) (db : DB) (now : Nat) (freshId : String)
    (hfresh : ∀ s ∈ db.slides, s.presentationId ≠ freshId)
    (hinv : countInvariant db) :
    countInvariant (createPresentation i1 u db now freshId).1 := by
  unfold createPresentation
  split
  · exact hinv
  · split
    · exact hinv
    · intro p hp
      rcases List.mem_append.mp hp with h | h
      · exact hinv p h
      · have hp' := List.mem_singleton.mp h
        subst hp'
        have hnil : db.slides.filter (fun s => s.presentationId == freshId) = [] := by
          rw [List.filter_eq_nil_iff]
          intro s hs hc
          rw [beq_iff_eq] at hc
          exact hfresh s hs hc
        simp [slidesFor, hnil]

/-- `updatePresentation` preserves the cache invariant whenever the
input does not supply `slideCount` (supplying one can break it). -/
theorem countInvariant_updatePresentation
    (i2 : UpdatePresentationInput) (u : Option String) (db : DB) (now : Nat)
    (hcnt : i2.slideCount = none) (hinv : countInvariant db) :
    countInvariant (updatePresentation i2 u db now).1 := by
  unfold updatePresentation
  split
  · exact hinv
  · split
    · exact hinv
    · split
      · exact hinv
      · intro p' hp'
        obtain ⟨p, hp, rfl⟩ := List.mem_map.mp hp'
        by_cases h : (p.id == i2.id) = true
        · rw [if_pos h]
          have hsc : (applyPresentationUpdate i2 now p).slideCount = p.slideCount := by
            simp [applyPresentationUpdate, hcnt]
          have hid : (applyPresentationUpdate i2 now p).id = p.id := rfl
          rw [hsc, hid]
          exact hinv p hp
        · rw [if_neg h]
          exact hinv p hp

/-- Mapping the `updateSlide` payload over the slide rows does not change
how many of them reference any given presentation. -/
theorem filter_length_map_slideUpdate (i5 : UpdateSlideInput) (now : Nat)
    (l : List Slide) (x : String) :
    ((l.map (fun s => if s.id == i5.id then applySlideUpdate i5 now s else s)).filter
        (fun s => s.presentationId == x)).length
      = (l.filter (fun s => s.presentationId == x)).length := by
  rw [List.filter_map, List.length_map]
  congr 1
  apply List.filter_congr
  intro s hs
  by_cases h : (s.id == i5.id) = true <;> simp [Function.comp, h, applySlideUpdate]

/-- `updateSlide` preserves the cache invariant: it cannot move a slide
to another presentation. -/
theorem countInvariant_updateSlide
    (i5 : UpdateSlideInput) (u : Option String) (db : DB) (now : Nat)
    (hinv : countInvariant db) :
    countInvariant (updateSlide i5 u db now).1 := by
  unfold updateSlide
  split
  · exact hinv
  · split
    · exact hinv
    · split
      · exact hinv
      · split
        · exact hinv
        · intro p hp
          show p.slideCount = some _
          rw [slidesFor_state_slides, filter_length_map_slideUpdate]
          exact hinv p hp

/-- `createSlide` preserves the cache invariant: it rewrites the parent's
count to the actual number of referencing slides plus one. -/
theorem countInvariant_createSlide
    (i4 : CreateSlideInput) (u : Option String) (db : DB) (now : Nat) (freshId : String)
    (hinv : countInvariant db) :
    countInvariant (createSlide i4 u db now freshId).1 := by
  unfold createSlide
  split
  · exact hinv
  · split
    · exact hinv
    · split
      · exact hinv
      · intro p' hp'
        dsimp only at hp'
        obtain ⟨p, hp, rfl⟩ := List.mem_map.mp hp'
        by_cases h : (p.id == i4.presentationId) = true
        · rw [if_pos h]
          have hpid : p.id = i4.presentationId := beq_iff_eq.mp h
          rw [slidesFor_state_slides]
          show some (((existingOrdersOf db i4.presentationId).length : Int) + 1) = _
          rw [List.filter_append]
          simp [hpid, existingOrdersOf, slidesFor]
        · rw [if_neg h]
          rw [slidesFor_state_slides, List.filter_append]
          have hne : ¬ (i4.presentationId == p.id) = true := by
            rw [beq_iff_eq]
            intro hc
            rw [beq_iff_eq] at h
            exact h hc.symm
          simp only [List.filter_cons, List.filter_nil, hne]
          simp only [Bool.false_eq_true, if_false, List.append_nil]
          exact hinv p hp

/-! ### Claim theorems -/

/-- Claim C6: each of the seven actions, invoked with a schema-valid input
but no authenticated user on the context, fails with `UNAUTHORIZED` and
leaves the store unchanged. -/
theorem unauthenticated_calls_fail_unauthorized
    (i1 : CreatePresentationInput) (i2 : UpdatePresentationInput)
    (i4 : CreateSlideInput) (i5 : UpdateSlideInput) (i6 : DeleteSlideInput)
    (i7 : ListSlidesInput) (db : DB) (now : Nat) (freshId : String)
    (h1 : validCreatePresentation i1 = true) (h2 : validUpdatePresentation i2 = true)
    (h4 : validCreateSlide i4 = true) (h5 : validUpdateSlide i5 = true)
    (h6 : validDeleteSlide i6 = true) (h7 : validListSlides i7 = true) :
    createPresentation i1 none db now freshId = (db, .error .unauthorized) ∧
    updatePresentation i2 none db now = (db, .error .unauthorized) ∧
    listPresentations none db = (db, .error .unauthorized) ∧
    createSlide i4 none db now freshId = (db, .error .unauthorized) ∧
    updateSlide i5 none db now = (db, .error .unauthorized) ∧
    deleteSlide i6 none db = (db, .error .unauthorized) ∧
    listSlides i7 none db = (db, .error .unauthorized) := by
  refine ⟨?_, ?_, ?_, ?_, ?_, ?_, ?_⟩ <;>
    simp [createPresentation, updatePresentation, listPresentations, createSlide,
      updateSlide, deleteSlide, listSlides, requireUser, h1, h2, h4, h5, h6, h7]

/-- Witness for C6 at concrete inputs. -/
theorem unauthenticated_calls_fail_unauthorized_witness :
    validCreatePresentation ⟨"T", none, none, none⟩ = true ∧
    validUpdatePresentation ⟨"p1", some "T", none, none, none, none⟩ = true ∧
    validCreateSlide ⟨"p1", none, none, none, none, none, none⟩ = true ∧
    validUpdateSlide ⟨"s1", "p1", some 2, none, none, none, none, none⟩ = true ∧
    validDeleteSlide ⟨"s1", "p1"⟩ = true ∧
    validListSlides ⟨"p1"⟩ = true ∧
    (createPresentation ⟨"T", none, none, none⟩ none exDb 3 "x" = (exDb, .error .unauthorized) ∧
     updatePresentation ⟨"p1", some "T", none, none, none, none⟩ none exDb 3 = (exDb, .error .unauthorized) ∧
     listPresentations none exDb = (exDb, .error .unauthorized) ∧
     createSlide ⟨"p1", none, none, none, none, none, none⟩ none exDb 3 "x" = (exDb, .error .unauthorized) ∧
     updateSlide ⟨"s1", "p1", some 2, none, none, none, none, none⟩ none exDb 3 = (exDb, .error .unauthorized) ∧
     deleteSlide ⟨"s1", "p1"⟩ none exDb = (exDb, .error .unauthorized) ∧
     listSlides ⟨"p1"⟩ none exDb = (exDb, .error .unauthorized)) :=
  ⟨rfl, rfl, rfl, rfl, rfl, rfl,
    unauthenticated_calls_fail_unauthorized _ _ _ _ _ _ exDb 3 "x"
      rfl rfl rfl rfl rfl rfl⟩

/-- Claim C9: an `updatePresentation` input supplying none of the five
updatable fields, and an `updateSlide` input supplying none of its six,
are rejected by schema validation for any context and any store: the
result is the validation error (so neither `UNAUTHORIZED` nor
`NOT_FOUND`) and the store is unchanged. -/
theorem empty_update_fails_validation
    (i2 : UpdatePresentationInput) (i5 : UpdateSlideInput)
    (u : Option String) (db : DB) (now : Nat)
    (h2 : suppliesPresentationField i2 = false)
    (h5 : suppliesSlideField i5 = false) :
    updatePresentation i2 u db now = (db, .error .validation) ∧
    updateSlide i5 u db now = (db, .error .validation) ∧
    ActionErr.validation ≠ ActionErr.unauthorized ∧
    ActionErr.validation ≠ ActionErr.notFound := by
  refine ⟨?_, ?_, by decide, by decide⟩ <;>
    simp [updatePresentation, updateSlide, validUpdatePresentation, validUpdateSlide,
      h2, h5]

/-- Witness for C9 at concrete inputs. -/
theorem empty_update_fails_validation_witness :
    suppliesPresentationField ⟨"p1", none, none, none, none, none⟩ = false ∧
    suppliesSlideField ⟨"s1", "p1", none, none, none, none, none, none⟩ = false ∧
    (updatePresentation ⟨"p1", none, none, none, none, none⟩ (some "u") exDb 3 = (exDb, .error .validation) ∧
     updateSlide ⟨"s1", "p1", none, none, none, none, none, none⟩ (some "u") exDb 3 = (exDb, .error .validation) ∧
     ActionErr.validation ≠ ActionErr.unauthorized ∧
     ActionErr.validation ≠ ActionErr.notFound) :=
  ⟨rfl, rfl,
    empty_update_fails_validation _ _ (some "u") exDb 3 rfl rfl⟩

/-- Claim C5: every operation addressing a presentation by identifier
(`updatePresentation`, `createSlide`, `updateSlide`, `deleteSlide`,
`listSlides`) fails with `NOT_FOUND` and leaves the store unchanged
whenever no presentation row matches both the supplied identifier and
the caller's user id — whether the id is absent altogether or names
another user's presentation, the result is this one identical value; in
particular `listSlides` by a non-owner errors rather than returning an
empty list. -/
theorem missing_or_foreign_presentation_fails_notFound
    (i2 : UpdatePresentationInput) (i4 : CreateSlideInput) (i5 : UpdateSlideInput)
    (i6 : DeleteSlideInput) (i7 : ListSlidesInput) (uid : String) (db : DB)
    (now : Nat) (freshId : String)
    (h2v : validUpdatePresentation i2 = true) (h4v : validCreateSlide i4 = true)
    (h5v : validUpdateSlide i5 = true) (h6v : validDeleteSlide i6 = true)
    (h7v : validListSlides i7 = true)
    (h2 : ∀ p ∈ db.presentations, ¬ (p.id = i2.id ∧ p.userId = uid))
    (h4 : ∀ p ∈ db.presentations, ¬ (p.id = i4.presentationId ∧ p.userId = uid))
    (h5 : ∀ p ∈ db.presentations, ¬ (p.id = i5.presentationId ∧ p.userId = uid))
    (h6 : ∀ p ∈ db.presentations, ¬ (p.id = i6.presentationId ∧ p.userId = uid))
    (h7 : ∀ p ∈ db.presentations, ¬ (p.id = i7.presentationId ∧ p.userId = uid)) :
    updatePresentation i2 (some uid) db now = (db, .error .notFound) ∧
    createSlide i4 (some uid) db now freshId = (db, .error .notFound) ∧
    updateSlide i5 (some uid) db now = (db, .error .notFound) ∧
    deleteSlide i6 (some uid) db = (db, .error .notFound) ∧
    listSlides i7 (some uid) db = (db, .error .notFound) := by
  refine ⟨?_, ?_, ?_, ?_, ?_⟩ <;>
    simp [updatePresentation, createSlide, updateSlide, deleteSlide, listSlides,
      requireUser, h2v, h4v, h5v, h6v, h7v,
      getOwnedPresentation_eq_notFound h2, getOwnedPresentation_eq_notFound h4,
      getOwnedPresentation_eq_notFound h5, getOwnedPresentation_eq_notFound h6,
      getOwnedPresentation_eq_notFound h7]

/-- Witness for C5: `exDb` holds presentation `p1` owned by user `u`;
user `v` addresses `p1` (the exists-but-foreign case) and every
operation returns the `NOT_FOUND` error with the store untouched. -/
theorem missing_or_foreign_presentation_fails_notFound_witness :
    (∀ p ∈ exDb.presentations, ¬ (p.id = "p1" ∧ p.userId = "v")) ∧
    (updatePresentation ⟨"p1", some "T", none, none, none, none⟩ (some "v") exDb 3 = (exDb, .error .notFound) ∧
     createSlide ⟨"p1", none, none, none, none, none, none⟩ (some "v") exDb 3 "x" = (exDb, .error .notFound) ∧
     updateSlide ⟨"s1", "p1", some 2, none, none, none, none, none⟩ (some "v") exDb 3 = (exDb, .error .notFound) ∧
     deleteSlide ⟨"s1", "p1"⟩ (some "v") exDb = (exDb, .error .notFound) ∧
     listSlides ⟨"p1"⟩ (some "v") exDb = (exDb, .error .notFound)) :=
  ⟨by decide,
    missing_or_foreign_presentation_fails_notFound _ _ _ _ _ "v" exDb 3 "x"
      rfl rfl rfl rfl rfl (by decide) (by decide) (by decide) (by decide) (by decide)⟩


/-- Claim C1, counterexample: in `exDb` the invariant holds (count 1, one
slide); a successful `deleteSlide` removes the slide without touching the
cached count, and `updatePresentation` supplying `slideCount = 5` stores
a count unrelated to the one referencing slide — both reachable states
violate the invariant, so it is not preserved by every exposed
operation. -/
theorem countInvariant_not_preserved_cex :
    countInvariant exDb ∧
    (deleteSlide ⟨"s1", "p1"⟩ (some "u") exDb).2 = .ok () ∧
    ¬ countInvariant (deleteSlide ⟨"s1", "p1"⟩ (some "u") exDb).1 ∧
    (updatePresentation ⟨"p1", none, none, none, none, some 5⟩ (some "u") exDb 9).2 =
      .ok (some { mkPres "p1" "u" (some 5) with updatedAt := 9 }) ∧
    ¬ countInvariant (updatePresentation ⟨"p1", none, none, none, none, some 5⟩ (some "u") exDb 9).1 :=
  ⟨by decide, rfl, by decide, rfl, by decide⟩

/-- Claim C1 amended: starting from a store satisfying the `slideCount`
invariant, the invariant is preserved by `createPresentation` (with a
fresh id), by `updatePresentation` when the input does not supply
`slideCount`, by `createSlide`, and by `updateSlide` — but not by
`deleteSlide`, nor by `updatePresentation` with an inconsistent explicit
`slideCount` (see the counterexample). -/
theorem countInvariant_preserved_by_nondelete_ops
    (i1 : CreatePresentationInput) (i2 : UpdatePresentationInput)
    (i4 : CreateSlideInput) (i5 : UpdateSlideInput) (u : Option String)
    (db : DB) (now : Nat) (freshId : String)
    (hfresh : ∀ s ∈ db.slides, s.presentationId ≠ freshId)
    (hcnt : i2.slideCount = none)
    (hinv : countInvariant db) :
    countInvariant (createPresentation i1 u db now freshId).1 ∧
    countInvariant (updatePresentation i2 u db now).1 ∧
    countInvariant (createSlide i4 u db now freshId).1 ∧
    countInvariant (updateSlide i5 u db now).1 :=
  ⟨countInvariant_createPresentation i1 u db now freshId hfresh hinv,
   countInvariant_updatePresentation i2 u db now hcnt hinv,
   countInvariant_createSlide i4 u db now freshId hinv,
   countInvariant_updateSlide i5 u db now hinv⟩

/-- Witness for amended C1 at concrete inputs over `exDb`. -/
theorem countInvariant_preserved_by_nondelete_ops_witness :
    (∀ s ∈ exDb.slides, s.presentationId ≠ "f9") ∧
    countInvariant exDb ∧
    (countInvariant (createPresentation ⟨"T", none, none, none⟩ (some "u") exDb 9 "f9").1 ∧
     countInvariant (updatePresentation ⟨"p1", some "New", none, none, none, none⟩ (some "u") exDb 9).1 ∧
     countInvariant (createSlide ⟨"p1", none, none, none, none, none, none⟩ (some "u") exDb 9 "f9").1 ∧
     countInvariant (updateSlide ⟨"s1", "p1", some 3, none, none, none, none, none⟩ (some "u") exDb 9).1) :=
  ⟨by decide, by decide,
    countInvariant_preserved_by_nondelete_ops _ _ _ _ (some "u") exDb 9 "f9"
      (by decide) rfl (by decide)⟩

/-- Claim C8: with the supplied presentation owned by the caller but no
slide row matching both the slide id and that presentation id (absent id
or a slide living under a different presentation), `updateSlide` and
`deleteSlide` fail with `NOT_FOUND` and the store — in particular every
slide row — is unchanged. -/
theorem slide_mismatch_fails_notFound
    (i5 : UpdateSlideInput) (i6 : DeleteSlideInput) (uid : String) (db : DB) (now : Nat)
    (h5v : validUpdateSlide i5 = true) (h6v : validDeleteSlide i6 = true)
    (hown5 : ∃ p ∈ db.presentations, p.id = i5.presentationId ∧ p.userId = uid)
    (hown6 : ∃ p ∈ db.presentations, p.id = i6.presentationId ∧ p.userId = uid)
    (habs5 : ∀ s ∈ db.slides, ¬ (s.id = i5.id ∧ s.presentationId = i5.presentationId))
    (habs6 : ∀ s ∈ db.slides, ¬ (s.id = i6.id ∧ s.presentationId = i6.presentationId)) :
    updateSlide i5 (some uid) db now = (db, .error .notFound) ∧
    deleteSlide i6 (some uid) db = (db, .error .notFound) := by
  obtain ⟨p5, hg5⟩ := getOwnedPresentation_isOk hown5
  obtain ⟨p6, hg6⟩ := getOwnedPresentation_isOk hown6
  have hnone : db.slides.find?
      (fun s => s.id == i5.id && s.presentationId == i5.presentationId) = none := by
    rw [List.find?_eq_none]
    intro s hs hc
    rw [Bool.and_eq_true, beq_iff_eq, beq_iff_eq] at hc
    exact habs5 s hs hc
  exact ⟨updateSlide_eq_notFound now h5v hg5 hnone, deleteSlide_eq_notFound h6v hg6 habs6⟩

/-- Witness for C8: `twoPresDb` has slide `s1` under `p1`; addressing it
through the caller-owned `p2` fails with `NOT_FOUND`. -/
theorem slide_mismatch_fails_notFound_witness :
    (∃ p ∈ twoPresDb.presentations, p.id = "p2" ∧ p.userId = "u") ∧
    (∀ s ∈ twoPresDb.slides, ¬ (s.id = "s1" ∧ s.presentationId = "p2")) ∧
    (updateSlide ⟨"s1", "p2", some 3, none, none, none, none, none⟩ (some "u") twoPresDb 9 =
      (twoPresDb, .error .notFound) ∧
     deleteSlide ⟨"s1", "p2"⟩ (some "u") twoPresDb = (twoPresDb, .error .notFound)) :=
  ⟨by decide, by decide,
    slide_mismatch_fails_notFound _ _ "u" twoPresDb 9 rfl rfl
      (by decide) (by decide) (by decide) (by decide)⟩

/-- Claim C10: a successful `deleteSlide` leaves the `Presentations`
table — hence the parent row with all its fields, `slideCount` and
`updatedAt` included — exactly as it was, whereas a successful
`createSlide` rewrites the parent's `slideCount` and refreshes its
`updatedAt`. -/
theorem deleteSlide_leaves_parent_untouched
    (i6 : DeleteSlideInput) (i4 : CreateSlideInput) (u u4 : Option String)
    (db db4 : DB) (now : Nat) (freshId : String) (s : Slide)
    (h6 : (deleteSlide i6 u db).2 = .ok ())
    (h4 : (createSlide i4 u4 db4 now freshId).2 = .ok s) :
    (deleteSlide i6 u db).1.presentations = db.presentations ∧
    (createSlide i4 u4 db4 now freshId).1.presentations =
      (db4.presentations.map (fun p =>
        if p.id == i4.presentationId then
          { p with
            slideCount := some (((existingOrdersOf db4 i4.presentationId).length : Int) + 1)
            updatedAt := now }
        else p)) := by
  obtain ⟨hv, uid, rfl, p, hg⟩ := createSlide_ok_inv h4
  rw [createSlide_eq now freshId hv hg]
  exact ⟨deleteSlide_presentations_untouched i6 u db, rfl⟩

/-- Witness for C10 at concrete successful calls over `exDb`. -/
theorem deleteSlide_leaves_parent_untouched_witness :
    (deleteSlide ⟨"s1", "p1"⟩ (some "u") exDb).2 = .ok () ∧
    (createSlide ⟨"p1", none, none, none, none, none, none⟩ (some "u") exDb 9 "s9").2 =
      .ok { id := "s9", presentationId := "p1", orderIndex := 2, layoutType := none,
            title := none, content := none, notes := none, rawData := none,
            createdAt := 9, updatedAt := 9 } ∧
    ((deleteSlide ⟨"s1", "p1"⟩ (some "u") exDb).1.presentations = exDb.presentations ∧
     (createSlide ⟨"p1", none, none, none, none, none, none⟩ (some "u") exDb 9 "s9").1.presentations =
       (exDb.presentations.map (fun p =>
         if p.id == "p1" then
           { p with
             slideCount := some (((existingOrdersOf exDb "p1").length : Int) + 1)
             updatedAt := 9 }
         else p))) :=
  ⟨rfl, rfl,
    deleteSlide_leaves_parent_untouched ⟨"s1", "p1"⟩ _ (some "u") (some "u") exDb exDb 9 "s9" _ rfl rfl⟩


/-- Shared computation: with no explicit order index supplied, a created
slide's order index is `1` on an empty presentation and the maximum
existing order index plus one otherwise. -/
theorem createSlide_nextOrder
    {i4 : CreateSlideInput} {u : Option String} {db : DB} {now : Nat}
    {freshId : String} {s : Slide}
    (hord : i4.orderIndex = none)
    (hok : (createSlide i4 u db now freshId).2 = .ok s) :
    s.orderIndex =
      if slidesFor db i4.presentationId = [] then 1
      else listMax ((slidesFor db i4.presentationId).map (fun sl => sl.orderIndex)) + 1 := by
  obtain ⟨hv, uid, rfl, p, hg⟩ := createSlide_ok_inv hok
  rw [createSlide_eq now freshId hv hg] at hok
  injection hok with h
  subst h
  show nextOrderOf db i4 = _
  unfold nextOrderOf
  rw [hord]
  have hEq : existingOrdersOf db i4.presentationId
      = (slidesFor db i4.presentationId).map (fun sl => sl.orderIndex) := rfl
  by_cases hnil : slidesFor db i4.presentationId = []
  · simp [hEq, hnil]
  · have hlen : (existingOrdersOf db i4.presentationId).length ≠ 0 := by
      rw [hEq, List.length_map]
      simpa [List.length_eq_zero] using hnil
    simp [hEq, hnil, hlen]

/-- Claim C4: for every `createSlide` call without an explicit order
index that returns a slide, the created slide's `orderIndex` is the
maximum of the existing slides' order indices for that presentation plus
one, or `1` when the presentation has no slides. -/
theorem createSlide_default_order_is_max_plus_one
    (i4 : CreateSlideInput) (u : Option String) (db : DB) (now : Nat)
    (freshId : String) (s : Slide)
    (hord : i4.orderIndex = none)
    (hok : (createSlide i4 u db now freshId).2 = .ok s) :
    s.orderIndex =
      if slidesFor db i4.presentationId = [] then 1
      else listMax ((slidesFor db i4.presentationId).map (fun sl => sl.orderIndex)) + 1 :=
  createSlide_nextOrder hord hok

/-- Witness for C4 over `gapDb`, whose one existing slide has order
index `5`: the created slide gets order index `6`. -/
theorem createSlide_default_order_is_max_plus_one_witness :
    ((createSlide ⟨"p1", none, none, none, none, none, none⟩ (some "u") gapDb 9 "s9").2 =
      .ok { id := "s9", presentationId := "p1", orderIndex := 6, layoutType := none,
            title := none, content := none, notes := none, rawData := none,
            createdAt := 9, updatedAt := 9 }) ∧
    (({ id := "s9", presentationId := "p1", orderIndex := 6, layoutType := none,
        title := none, content := none, notes := none, rawData := none,
        createdAt := 9, updatedAt := 9 : Slide }).orderIndex =
      if slidesFor gapDb "p1" = [] then 1
      else listMax ((slidesFor gapDb "p1").map (fun sl => sl.orderIndex)) + 1) :=
  ⟨rfl,
    createSlide_default_order_is_max_plus_one ⟨"p1", none, none, none, none, none, none⟩
      (some "u") gapDb 9 "s9" _ rfl rfl⟩

/-- Claim C2, counterexample: `gapDb` has N = 1 existing slide for `p1`,
with order index `5`; `createSlide` without an explicit order index
creates a slide with order index `6`, not `N + 1 = 2`. -/
theorem createSlide_default_order_not_count_plus_one_cex :
    (slidesFor gapDb "p1").length = 1 ∧
    (createSlide ⟨"p1", none, none, none, none, none, none⟩ (some "u") gapDb 9 "s9").2 =
      .ok { id := "s9", presentationId := "p1", orderIndex := 6, layoutType := none,
            title := none, content := none, notes := none, rawData := none,
            createdAt := 9, updatedAt := 9 } ∧
    (6 : Int) ≠ 1 + 1 :=
  ⟨rfl, rfl, by decide⟩

/-- Claim C2 amended: the created slide's order index is `N + 1` (with
`N` the number of existing slides; in particular `1` when `N = 0`)
exactly when the maximum existing order index equals `N` — the general
rule is maximum-plus-one, not count-plus-one. -/
theorem createSlide_default_order_count_plus_one_when_max_is_count
    (i4 : CreateSlideInput) (u : Option String) (db : DB) (now : Nat)
    (freshId : String) (s : Slide)
    (hord : i4.orderIndex = none)
    (hmax : slidesFor db i4.presentationId ≠ [] →
      listMax ((slidesFor db i4.presentationId).map (fun sl => sl.orderIndex)) =
        ((slidesFor db i4.presentationId).length : Int))
    (hok : (createSlide i4 u db now freshId).2 = .ok s) :
    s.orderIndex = ((slidesFor db i4.presentationId).length : Int) + 1 := by
  rw [createSlide_nextOrder hord hok]
  by_cases hnil : slidesFor db i4.presentationId = []
  · simp [hnil]
  · rw [if_neg hnil, hmax hnil]

/-- Witness for amended C2 over `exDb` (one slide, order index `1`): the
created slide gets order index `2 = N + 1`. -/
theorem createSlide_default_order_count_plus_one_when_max_is_count_witness :
    ((createSlide ⟨"p1", none, none, none, none, none, none⟩ (some "u") exDb 9 "s9").2 =
      .ok { id := "s9", presentationId := "p1", orderIndex := 2, layoutType := none,
            title := none, content := none, notes := none, rawData := none,
            createdAt := 9, updatedAt := 9 }) ∧
    (slidesFor exDb "p1" ≠ [] →
      listMax ((slidesFor exDb "p1").map (fun sl => sl.orderIndex)) =
        ((slidesFor exDb "p1").length : Int)) ∧
    (({ id := "s9", presentationId := "p1", orderIndex := 2, layoutType := none,
        title := none, content := none, notes := none, rawData := none,
        createdAt := 9, updatedAt := 9 : Slide }).orderIndex =
      ((slidesFor exDb "p1").length : Int) + 1) :=
  ⟨rfl, by decide,
    createSlide_default_order_count_plus_one_when_max_is_count
      ⟨"p1", none, none, none, none, none, none⟩ (some "u") exDb 9 "s9" _
      rfl (by decide) rfl⟩

/-- Claim C3, counterexample: in `staleDb` presentation `p1` stores
`slideCount = 7` while no slide references it; a successful `createSlide`
leaves the parent at `slideCount = 1` (actual referencing slides plus
one), not at stored-count-plus-one `8`. -/
theorem createSlide_count_not_stored_plus_one_cex :
    (∀ p ∈ staleDb.presentations, p.slideCount = some 7) ∧
    (createSlide ⟨"p1", none, none, none, none, none, none⟩ (some "u") staleDb 9 "s9").2 =
      .ok { id := "s9", presentationId := "p1", orderIndex := 1, layoutType := none,
            title := none, content := none, notes := none, rawData := none,
            createdAt := 9, updatedAt := 9 } ∧
    (∀ p ∈ (createSlide ⟨"p1", none, none, none, none, none, none⟩
        (some "u") staleDb 9 "s9").1.presentations, p.slideCount = some 1) ∧
    some (1 : Int) ≠ some ((7 : Int) + 1) :=
  ⟨by decide, rfl, by decide, by decide⟩

/-- Claim C3 amended: after a successful `createSlide` the parent's
stored `slideCount` equals the number of slides that referenced the
presentation before the call plus one, and its `updatedAt` is refreshed
to the call time; this coincides with stored-count-plus-one exactly when
the `slideCount` cache invariant held beforehand. -/
theorem createSlide_bumps_count_to_actual_plus_one
    (i4 : CreateSlideInput) (u : Option String) (db : DB) (now : Nat)
    (freshId : String) (s : Slide)
    (hok : (createSlide i4 u db now freshId).2 = .ok s) :
    (∀ p ∈ (createSlide i4 u db now freshId).1.presentations,
        p.id = i4.presentationId →
          p.slideCount = some (((slidesFor db i4.presentationId).length : Int) + 1) ∧
          p.updatedAt = now) ∧
    (countInvariant db →
      ∀ p ∈ db.presentations, p.id = i4.presentationId →
        Option.map (fun c => c + 1) p.slideCount =
          some (((slidesFor db i4.presentationId).length : Int) + 1)) := by
  obtain ⟨hv, uid, rfl, q, hg⟩ := createSlide_ok_inv hok
  rw [createSlide_eq now freshId hv hg]
  constructor
  · intro p' hp' hid
    dsimp only at hp'
    obtain ⟨p, hp, rfl⟩ := List.mem_map.mp hp'
    by_cases h : (p.id == i4.presentationId) = true
    · rw [if_pos h] at hid ⊢
      constructor
      · show some (((existingOrdersOf db i4.presentationId).length : Int) + 1) = _
        have hlm : (existingOrdersOf db i4.presentationId).length
            = (slidesFor db i4.presentationId).length := List.length_map _ _
        rw [hlm]
      · rfl
    · rw [if_neg h] at hid
      exact absurd (beq_iff_eq.mpr hid) h
  · intro hinv p hp hid
    rw [hinv p hp, hid]
    rfl

/-- Witness for amended C3 over `exDb` (one referencing slide, cached
count `1`): after `createSlide` the parent stores `slideCount = 2`. -/
theorem createSlide_bumps_count_to_actual_plus_one_witness :
    ((createSlide ⟨"p1", none, none, none, none, none, none⟩ (some "u") exDb 9 "s9").2 =
      .ok { id := "s9", presentationId := "p1", orderIndex := 2, layoutType := none,
            title := none, content := none, notes := none, rawData := none,
            createdAt := 9, updatedAt := 9 }) ∧
    ((∀ p ∈ (createSlide ⟨"p1", none, none, none, none, none, none⟩
        (some "u") exDb 9 "s9").1.presentations,
        p.id = "p1" →
          p.slideCount = some (((slidesFor exDb "p1").length : Int) + 1) ∧
          p.updatedAt = 9) ∧
     (countInvariant exDb →
       ∀ p ∈ exDb.presentations, p.id = "p1" →
         Option.map (fun c => c + 1) p.slideCount =
           some (((slidesFor exDb "p1").length : Int) + 1))) :=
  ⟨rfl,
    createSlide_bumps_count_to_actual_plus_one
      ⟨"p1", none, none, none, none, none, none⟩ (some "u") exDb 9 "s9" _ rfl⟩

/-- Claim C7: successful `updatePresentation` and `updateSlide` calls
rewrite only the rows matching the target identifier — every other row
in both tables is untouched — and on the target the update payload
changes exactly the supplied fields plus `updatedAt`; unsupplied fields
(and `id`, `userId`/`presentationId`, `createdAt`) keep their prior
values. -/
theorem update_actions_touch_only_supplied_fields
    (i2 : UpdatePresentationInput) (i5 : UpdateSlideInput) (u2 u5 : Option String)
    (db2 db5 : DB) (now : Nat) (o2 : Option Presentation) (o5 : Option Slide)
    (h2 : (updatePresentation i2 u2 db2 now).2 = .ok o2)
    (h5 : (updateSlide i5 u5 db5 now).2 = .ok o5) :
    ((updatePresentation i2 u2 db2 now).1.slides = db2.slides ∧
     (updatePresentation i2 u2 db2 now).1.presentations =
       (db2.presentations.map
         (fun q => if q.id == i2.id then applyPresentationUpdate i2 now q else q)) ∧
     ∀ p : Presentation,
       (applyPresentationUpdate i2 now p).id = p.id ∧
       (applyPresentationUpdate i2 now p).userId = p.userId ∧
       (applyPresentationUpdate i2 now p).createdAt = p.createdAt ∧
       (applyPresentationUpdate i2 now p).updatedAt = now ∧
       (i2.title = none → (applyPresentationUpdate i2 now p).title = p.title) ∧
       (i2.description = none → (applyPresentationUpdate i2 now p).description = p.description) ∧
       (i2.theme = none → (applyPresentationUpdate i2 now p).theme = p.theme) ∧
       (i2.aspectRatio = none → (applyPresentationUpdate i2 now p).aspectRatio = p.aspectRatio) ∧
       (i2.slideCount = none → (applyPresentationUpdate i2 now p).slideCount = p.slideCount)) ∧
    ((updateSlide i5 u5 db5 now).1.presentations = db5.presentations ∧
     (updateSlide i5 u5 db5 now).1.slides =
       (db5.slides.map (fun s => if s.id == i5.id then applySlideUpdate i5 now s else s)) ∧
     ∀ s : Slide,
       (applySlideUpdate i5 now s).id = s.id ∧
       (applySlideUpdate i5 now s).presentationId = s.presentationId ∧
       (applySlideUpdate i5 now s).createdAt = s.createdAt ∧
       (applySlideUpdate i5 now s).updatedAt = now ∧
       (i5.orderIndex = none → (applySlideUpdate i5 now s).orderIndex = s.orderIndex) ∧
       (i5.layoutType = none → (applySlideUpdate i5 now s).layoutType = s.layoutType) ∧
       (i5.title = none → (applySlideUpdate i5 now s).title = s.title) ∧
       (i5.content = none → (applySlideUpdate i5 now s).content = s.content) ∧
       (i5.notes = none → (applySlideUpdate i5 now s).notes = s.notes) ∧
       (i5.rawData = none → (applySlideUpdate i5 now s).rawData = s.rawData)) := by
  obtain ⟨hv2, uid2, rfl, p2, hg2⟩ := updatePresentation_ok_inv h2
  obtain ⟨hv5, uid5, rfl, ⟨p5, hg5⟩, s0, hs0⟩ := updateSlide_ok_inv h5
  rw [updatePresentation_eq now hv2 hg2, updateSlide_eq now hv5 hg5 hs0]
  refine ⟨⟨rfl, rfl, ?_⟩, rfl, rfl, ?_⟩
  · intro p
    refine ⟨rfl, rfl, rfl, rfl, ?_, ?_, ?_, ?_, ?_⟩ <;>
      intro h <;> simp [applyPresentationUpdate, h]
  · intro s
    refine ⟨rfl, rfl, rfl, rfl, ?_, ?_, ?_, ?_, ?_, ?_⟩ <;>
      intro h <;> simp [applySlideUpdate, h]

/-- Witness for C7: concrete successful update calls over `exDb`; the
untouched-table components of the conclusion are read off the theorem. -/
theorem update_actions_touch_only_supplied_fields_witness :
    ((updatePresentation ⟨"p1", some "New", none, none, none, none⟩ (some "u") exDb 9).2 =
      .ok (some { mkPres "p1" "u" (some 1) with title := "New", updatedAt := 9 })) ∧
    ((updateSlide ⟨"s1", "p1", none, some "two-column", none, none, none, none⟩ (some "u") exDb 9).2 =
      .ok (some { mkSlide "s1" "p1" 1 with layoutType := some "two-column", updatedAt := 9 })) ∧
    ((updatePresentation ⟨"p1", some "New", none, none, none, none⟩ (some "u") exDb 9).1.slides =
      exDb.slides) ∧
    ((updateSlide ⟨"s1", "p1", none, some "two-column", none, none, none, none⟩ (some "u") exDb 9).1.presentations =
      exDb.presentations) :=
  ⟨rfl, rfl,
    (update_actions_touch_only_supplied_fields
      ⟨"p1", some "New", none, none, none, none⟩
      ⟨"s1", "p1", none, some "two-column", none, none, none, none⟩
      (some "u") (some "u") exDb exDb 9 _ _ rfl rfl).1.1,
    (update_actions_touch_only_supplied_fields
      ⟨"p1", some "New", none, none, none, none⟩
      ⟨"s1", "p1", none, some "two-column", none, none, none, none⟩
      (some "u") (some "u") exDb exDb 9 _ _ rfl rfl).2.1⟩

end PresentationDesigner
